import Mathlib

/-!
Verification of the `serial_device` repository: a shallow embedding of the
connection-lifecycle engine (`serial_device/threaded.py`), the OR-event
combinator (`serial_device/or_event.py`), and the MQTT orchestrator's
connect handler (`serial_device/mqtt.py`), with theorems settling the
specified claims about them.

Modelling conventions: `threading.Event` objects are booleans; the
background `run` thread is a deterministic function of an oracle that fixes
the outcome of every environment interaction (port enumeration snapshots,
`serial_for_url` results, observed close requests); the code is Python 2,
so `x > None` for a number `x` evaluates to `True`.
-/

namespace SerialDevice

/-! ## `EventProtocol` (threaded.py lines 21-51)

`connection_made` sets `connected` and clears `disconnected`;
`connection_lost` clears `connected` and sets `disconnected`; both start
cleared in `__init__`. -/

structure ProtocolState where
  connected : Bool
  disconnected : Bool
  deriving DecidableEq, Repr

/-- Model of `EventProtocol.__init__`: both events start cleared. -/
def protocolInit : ProtocolState := ⟨false, false⟩

/-- A transport-level event delivered to the protocol handler. -/
inductive TransportEvent
  | made
  | lost
  deriving DecidableEq, Repr

/-- Transitions `EventProtocol.connection_made` and
`EventProtocol.connection_lost`. -/
def handleEvent (s : ProtocolState) : TransportEvent → ProtocolState
  | .made => { s with connected := true, disconnected := false }
  | .lost => { s with connected := false, disconnected := true }

/-- Deliver a sequence of transport events to the protocol handler. -/
def runEvents (s : ProtocolState) (es : List TransportEvent) : ProtocolState :=
  es.foldl handleEvent s

/-! ## `or_event.py`

Sources are numbered `0, 1, ...`; an `OrWorld` holds the value of each
source event, the single `changed` callback slot that `orify` installs on
each source (`event.changed = changed_callback` overwrites any previous
callback), and the list of derived combinators in order of installation,
each holding its source set and the current value of its `or_event`. -/

structure OrComb where
  srcs : List Nat
  val : Bool
  deriving DecidableEq, Repr

structure OrWorld where
  srcVal : List Bool
  cb : List (Option Nat)
  combs : List OrComb
  deriving DecidableEq, Repr

/-- Value `any(event_i.is_set() for event_i in events)` for a combinator's
source list under the current source values. -/
def orValue (w : OrWorld) (srcs : List Nat) : Bool :=
  srcs.any fun i => w.srcVal.getD i false

/-- The body of the `changed` closure of combinator `cid`: recompute that
combinator's `or_event` from the current values of its own sources. -/
def recompute (w : OrWorld) (cid : Nat) : OrWorld :=
  match w.combs.get? cid with
  | none => w
  | some c => { w with combs := w.combs.set cid { c with val := orValue w c.srcs } }

/-- Model of `orify(event, changed_callback)` (or_event.py lines 19-36): the
`changed` attribute of the source is assigned unconditionally, replacing
any callback installed by an earlier combinator; the `set`/`clear`
wrapping is guarded by `hasattr(event, '_set')` and is idempotent, so it
needs no state beyond the callback slot. -/
def orify (w : OrWorld) (src : Nat) (cid : Nat) : OrWorld :=
  { w with cb := w.cb.set src (some cid) }

/-- Model of `OrEvent(*events)` (or_event.py lines 39-70): create the derived event
(initially cleared), orify every source with this combinator's `changed`
callback, then invoke `changed()` once to compute the initial value. -/
def installOr (w : OrWorld) (srcs : List Nat) : OrWorld :=
  let cid := w.combs.length
  let w1 : OrWorld := { w with combs := w.combs ++ [⟨srcs, false⟩] }
  let w2 := srcs.foldl (fun acc s => orify acc s cid) w1
  recompute w2 cid

/-- Effect of `event.set()` after orification (`or_set`): perform the underlying
set, then call the one `changed` callback currently installed. -/
def srcSet (w : OrWorld) (s : Nat) : OrWorld :=
  let w1 : OrWorld := { w with srcVal := w.srcVal.set s true }
  match w1.cb.getD s none with
  | none => w1
  | some cid => recompute w1 cid

/-- Effect of `event.clear()` after orification (`or_clear`). -/
def srcClear (w : OrWorld) (s : Nat) : OrWorld :=
  let w1 : OrWorld := { w with srcVal := w.srcVal.set s false }
  match w1.cb.getD s none with
  | none => w1
  | some cid => recompute w1 cid

/-! ## `KeepAliveReader` (threaded.py lines 54-234)

The session's events (`connected`, `closed`, `error`, `has_connected`,
plus the `error.exception` attribute) form a `SessionState`.  The body of
`run` is embedded as a deterministic function of an oracle: one
`IterOracle` per outer-loop iteration fixes what the environment does at
each interaction point of that iteration, and the emitted primitive state
updates are recorded as an `Action` trace (together with every
`connected_event.wait` call and its timeout argument). -/

inductive SessionError
  | nameError (port : String)
  | serialException
  | otherException
  deriving DecidableEq, Repr

structure SessionState where
  connected : Bool
  closed : Bool
  errorFlag : Bool
  errorCause : Option SessionError
  hasConnected : Bool
  deriving DecidableEq, Repr

/-- Model of `KeepAliveReader.__init__`: all events start cleared, no exception. -/
def sessionStart : SessionState :=
  { connected := false, closed := false, errorFlag := false
    errorCause := none, hasConnected := false }

/-- Property `KeepAliveReader.alive` (threaded.py lines 93-95):
`not self.closed.is_set()`. -/
def alive (s : SessionState) : Bool := !s.closed

/-- One primitive effect of the `run` loop on the session state, or a
recorded `connected_event.wait(t)` call (which leaves the state alone). -/
inductive Action
  | attachCause (e : SessionError)
  | raiseError
  | closeAct
  | connectAct
  | disconnectAct
  | markHasConnected
  | waitConn (t : Option Nat)
  deriving DecidableEq, Repr

def applyAction (s : SessionState) : Action → SessionState
  | .attachCause e => { s with errorCause := some e }
  | .raiseError => { s with errorFlag := true }
  | .closeAct => { s with closed := true }
  | .connectAct => { s with connected := true }
  | .disconnectAct => { s with connected := false }
  | .markHasConnected => { s with hasConnected := true }
  | .waitConn _ => s

def applyActions (s : SessionState) (tr : List Action) : SessionState :=
  tr.foldl applyAction s

/-- Timeout argument (threaded.py lines 149-150) of the wait for
connection is `None if self.has_connected.is_set() else
self.default_timeout_s`. -/
def connectWaitTimeout (hasConnected : Bool) (defaultTimeout : Option Nat) :
    Option Nat :=
  if hasConnected then none else defaultTimeout

/-- Environment oracle for one iteration of the outer `while True` loop:
how many availability snapshots miss the port before one contains it,
whether a close request is observed during that availability wait, whether
`serial_for_url` succeeds (and with which exception it fails otherwise),
and whether the close request is observed at the check after the
connected wait and after the disconnected wait. -/
structure IterOracle where
  availDelay : Nat
  closeDuringWait : Bool
  openOk : Bool
  openErr : SessionError
  closeAtConnect : Bool
  closeAtDisconnect : Bool
  deriving DecidableEq, Repr

inductive RunOutcome
  | terminated
  | exhausted
  deriving DecidableEq, Repr

/-- The outer loop of `KeepAliveReader.run` (threaded.py lines 112-165),
threading the session state, emitting the action trace of each branch.
When the oracle list is exhausted the loop is still running. -/
def runLoop (d : Option Nat) :
    SessionState → List IterOracle → List Action × SessionState × RunOutcome
  | s, [] => ([], s, .exhausted)
  | s, it :: rest =>
    if (it.availDelay != 0) && it.closeDuringWait then
      -- close request observed while waiting for the port to reappear:
      -- nothing open, just set `closed` and return (lines 118-122).
      ([.closeAct], applyAction s .closeAct, .terminated)
    else if !it.openOk then
      -- `serial.serial_for_url` raised (lines 127-137): record the
      -- exception, set `error`, set `closed`, return.
      let tr : List Action := [.attachCause it.openErr, .raiseError, .closeAct]
      (tr, applyActions s tr, .terminated)
    else
      -- device opened; wait for connection (lines 148-150).
      let w : Action := .waitConn (connectWaitTimeout s.hasConnected d)
      if it.closeAtConnect then
        -- close request set: quit the run loop (lines 151-155).
        let tr : List Action := [w, .closeAct]
        (tr, applyActions s tr, .terminated)
      else
        -- mark connected and has-connected (lines 156-157), wait for
        -- disconnection (line 159), then either quit on close (lines
        -- 160-163) or clear `connected` and loop (line 164).
        if it.closeAtDisconnect then
          let tr : List Action := [w, .connectAct, .markHasConnected, .closeAct]
          (tr, applyActions s tr, .terminated)
        else
          let tr : List Action := [w, .connectAct, .markHasConnected, .disconnectAct]
          let s1 := applyActions s tr
          ((tr ++ (runLoop d s1 rest).1, (runLoop d s1 rest).2))

/-- Model of `KeepAliveReader.run` (threaded.py lines 97-165): the initial
availability check raises `NameError` when the requested port is not among
the available ports, which is caught and recorded as a fatal error
(lines 99-110); otherwise the reconnect loop runs. -/
def runModel (available : List String) (comport : String) (d : Option Nat)
    (iters : List IterOracle) : List Action × SessionState × RunOutcome :=
  if comport ∈ available then
    runLoop d sessionStart iters
  else
    let tr : List Action :=
      [.attachCause (.nameError comport), .raiseError, .closeAct]
    (tr, applyActions sessionStart tr, .terminated)

/-! ## `KeepAliveReader.write` (threaded.py lines 167-184)

The body is `self.connected.wait(timeout_s)` followed unconditionally by
`self.protocol.transport.write(data)`.  The boolean result of the wait —
whether `connected` became set within the timeout — is discarded, so the
model takes it as an oracle input.  `self.protocol` is `None` until the
first `serial_for_url` success and `transport` may be `None` on a protocol
that was never connected; attribute access on `None` raises. -/

structure WriteProtocol where
  transport : Option Nat
  deriving DecidableEq, Repr

inductive WriteResult
  | sent (transport : Nat) (data : Nat)
  | attributeError
  deriving DecidableEq, Repr

set_option linter.unusedVariables false in
def KeepAliveReader.write (connectedInTime : Bool) (protocol : Option WriteProtocol)
    (data : Nat) : WriteResult :=
  -- `self.connected.wait(timeout_s)`: the result `connectedInTime` is unused.
  match protocol with
  | none => .attributeError
  | some p =>
    match p.transport with
    | none => .attributeError
    | some t => .sent t data

/-! ## `request` (threaded.py lines 237-273)

A timing scenario is the tick at which the single response is pushed onto
`response_queue` (`none` when no response ever arrives) together with its
payload; the timeout is `none` for an absent (`None`) timeout.  One tick is
one iteration of the busy-poll loop; `qsize` at tick `k` is nonzero iff
the response arrived at some tick `≤ k`.  The code is Python 2, where
`(now - start).total_seconds() > None` evaluates to `True` (a number
compares greater than `None`). -/

inductive ReqOutcome
  | got (payload : Nat)
  | queueEmpty
  | blockedForever
  deriving DecidableEq, Repr

/-- Value of `response_queue.qsize()` at tick `k`. -/
def qsizeAt (arrival : Option Nat) (k : Nat) : Bool :=
  match arrival with
  | none => false
  | some a => a ≤ k

/-- Comparison `(dt.datetime.now() - start).total_seconds() > timeout_s` under
Python 2 comparison: a float is greater than `None`. -/
def py2GtTimeout (elapsed : Nat) (timeout : Option Nat) : Bool :=
  match timeout with
  | none => true
  | some t => t < elapsed

/-- Fuel bound for the busy-poll loop: with `timeout = None` the Python 2
comparison fires at the very first empty check; with `timeout = t` the
loop raises no later than tick `t + 1`. -/
def pollFuel : Option Nat → Nat
  | none => 1
  | some t => t + 2

/-- The busy-poll loop body (threaded.py lines 264-268): at each iteration
check `qsize` first, then the elapsed-time comparison, else spin. -/
def busyGo (arrival : Option Nat) (payload : Nat) (timeout : Option Nat) :
    Nat → Nat → ReqOutcome
  | 0, _ => .blockedForever
  | fuel + 1, k =>
    if qsizeAt arrival k then .got payload
    else if py2GtTimeout k timeout then .queueEmpty
    else busyGo arrival payload timeout fuel (k + 1)

def busyPoll (arrival : Option Nat) (payload : Nat) (timeout : Option Nat) :
    ReqOutcome :=
  busyGo arrival payload timeout (pollFuel timeout) 0

/-- Model of `response_queue.get(timeout=timeout_s)` (threaded.py line 272): with a
`None` timeout it blocks until an item arrives (forever when none does);
with timeout `t` it returns the item iff it arrives by tick `t`, else
raises `queue.Empty`. -/
def blockingGet (arrival : Option Nat) (payload : Nat) (timeout : Option Nat) :
    ReqOutcome :=
  match arrival, timeout with
  | some _, none => .got payload
  | none, none => .blockedForever
  | some a, some t => if a ≤ t then .got payload else .queueEmpty
  | none, some _ => .queueEmpty

/-- Retrieval step of `request` (threaded.py lines 262-272): busy-poll when `poll`,
blocking `Queue.get` otherwise (the preceding `device.write(payload)` is
common to both paths). -/
def requestRetrieve (poll : Bool) (arrival : Option Nat) (payload : Nat)
    (timeout : Option Nat) : ReqOutcome :=
  if poll then busyPoll arrival payload timeout
  else blockingGet arrival payload timeout

/-! ## `SerialDeviceManager._serial_connect` (mqtt.py lines 182-324)

`serial` module constants are modelled by a lookup table (`getattr`) and
the platform-supported sets `BYTESIZES` / `PARITIES` / `STOPBITS`; the
registry is the `open_devices` mapping (port → effective parameters of the
open transport); every `mqtt_client.publish` and every `serial_for_url`
call is recorded. -/

structure SerialConfig where
  attrs : List (String × Nat)
  byteSizes : List Nat
  parities : List Nat
  stopBitsVals : List Nat
  eightbits : Nat
  parityNone : Nat
  stopbitsOne : Nat
  deriving DecidableEq, Repr

structure DeviceParams where
  baudrate : Int
  bytesize : Nat
  parity : Nat
  stopbits : Nat
  xonxoff : Bool
  rtscts : Bool
  dsrdtr : Bool
  deriving DecidableEq, Repr

abbrev Registry := List (String × DeviceParams)

def lookupReg (r : Registry) (port : String) : Option DeviceParams :=
  (r.find? fun e => e.1 == port).map Prod.snd

/-- A message published by the manager (only status messages occur on the
connect paths under study; `none` payload is the empty `{}` status). -/
inductive Pub
  | status (port : String) (payload : Option DeviceParams)
  deriving DecidableEq, Repr

/-- Model of `SerialDeviceManager._publish_status` (mqtt.py lines 142-160). -/
def publishStatus (r : Registry) (port : String) : Pub :=
  .status port (lookupReg r port)

/-- Resolution of one optional enum field of the connect request (mqtt.py
lines 235-276): absent means the serial-module default; present means
`getattr(serial, name)` — `AttributeError` (unknown name) or a value not
in the platform-supported list rejects the request. -/
def resolveField (cfg : SerialConfig) (supported : List Nat)
    (field : Option String) (dflt : Nat) : Option Nat :=
  match field with
  | none => some dflt
  | some name =>
    match (cfg.attrs.find? fun e => e.1 == name).map Prod.snd with
    | none => none
    | some v => if supported.contains v then some v else none

/-- A parsed connect request body.  `baudrate = some none` models a
`baudrate` key whose value makes `int(...)` raise `TypeError`;
`some (some n)` a convertible value; `none` an absent key. -/
structure ConnectRequest where
  baudrate : Option (Option Int)
  bytesize : Option String
  parity : Option String
  stopbits : Option String
  xonxoff : Bool
  rtscts : Bool
  dsrdtr : Bool
  deriving DecidableEq, Repr

inductive ConnectOutcome
  | republished
  | rejected
  | opened
  | openFailed
  deriving DecidableEq, Repr

/-- Model of `SerialDeviceManager._serial_connect` (mqtt.py lines 182-324).
Returns the new registry, the published messages, the list of
`serial_for_url` attempts (with the parameters passed), and the outcome.
`openOk` is the environment's verdict on the open attempt; on success the
reader thread's `connection_made` registers the transport and publishes
its status (mqtt.py lines 297-300), on failure the exception is logged
and the handler returns (lines 322-324). -/
def serialConnect (cfg : SerialConfig) (openOk : Bool) (r : Registry)
    (port : String) (req : ConnectRequest) :
    Registry × List Pub × List DeviceParams × ConnectOutcome :=
  match lookupReg r port with
  | some _ =>
    -- already connected: republish current status, return (lines 225-228).
    (r, [publishStatus r port], [], .republished)
  | none =>
    match req.baudrate with
    | none => (r, [], [], .rejected)  -- `baudrate` missing (lines 231-234)
    | some baudConv =>
      match resolveField cfg cfg.byteSizes req.bytesize cfg.eightbits with
      | none => (r, [], [], .rejected)  -- lines 235-248
      | some bytesizeV =>
        match resolveField cfg cfg.parities req.parity cfg.parityNone with
        | none => (r, [], [], .rejected)  -- lines 249-262
        | some parityV =>
          match resolveField cfg cfg.stopBitsVals req.stopbits cfg.stopbitsOne with
          | none => (r, [], [], .rejected)  -- lines 263-276
          | some stopbitsV =>
            match baudConv with
            | none => (r, [], [], .rejected)  -- `int(...)` TypeError (lines 278-285)
            | some baudN =>
              let params : DeviceParams :=
                ⟨baudN, bytesizeV, parityV, stopbitsV,
                 req.xonxoff, req.rtscts, req.dsrdtr⟩
              if openOk then
                let r2 := (port, params) :: r
                (r2, [publishStatus r2 port], [params], .opened)
              else
                (r, [], [params], .openFailed)

/-! ## Helper lemmas -/

/-- One `connection_made`/`connection_lost` transition overwrites both
condition variables, so the resulting protocol state does not depend on
the state it started from. -/
theorem handleEvent_const (s s' : ProtocolState) (e : TransportEvent) :
    handleEvent s e = handleEvent s' e := by
  cases e <;> rfl

theorem runEvents_append (s : ProtocolState) (l1 l2 : List TransportEvent) :
    runEvents s (l1 ++ l2) = runEvents (runEvents s l1) l2 := by
  simp [runEvents, List.foldl_append]

/-- Mutual exclusion of `connected` and `disconnected` is preserved by any
sequence of transport events. -/
theorem runEvents_exclusive :
    ∀ (es : List TransportEvent) (s : ProtocolState),
      (s.connected && s.disconnected) = false →
      ((runEvents s es).connected && (runEvents s es).disconnected) = false := by
  intro es
  induction es with
  | nil => intro s h; simpa [runEvents] using h
  | cons e rest ih =>
    intro s h
    have hstep : runEvents s (e :: rest) = runEvents (handleEvent s e) rest := rfl
    rw [hstep]
    apply ih
    cases e <;> simp [handleEvent]

/-! ## Claims -/

/-- C6: for every sequence of `connection_made`/`connection_lost` events
delivered to one `EventProtocol`, after each event the `connected` and
`disconnected` conditions are never simultaneously set, a repeated event
causes no further state change (no double-connect or double-disconnect is
observed), and after any event the two conditions are determined by that
event alone: `connected` iff it was a `connection_made`, `disconnected`
iff it was a `connection_lost`. -/
theorem connected_disconnected_exclusive_alternate :
    ∀ (es : List TransportEvent) (e : TransportEvent),
      ((runEvents protocolInit es).connected
        && (runEvents protocolInit es).disconnected) = false
      ∧ runEvents protocolInit (es ++ [e, e]) = runEvents protocolInit (es ++ [e])
      ∧ (runEvents protocolInit (es ++ [e])).connected = (e == TransportEvent.made)
      ∧ (runEvents protocolInit (es ++ [e])).disconnected = (e == TransportEvent.lost) := by
  intro es e
  refine ⟨runEvents_exclusive es protocolInit rfl, ?_, ?_, ?_⟩
  · have h1 : es ++ [e, e] = (es ++ [e]) ++ [e] := by simp
    rw [h1, runEvents_append, runEvents_append]
    have h2 : runEvents (runEvents protocolInit es) [e] =
        handleEvent (runEvents protocolInit es) e := rfl
    have h3 : ∀ t, runEvents t [e] = handleEvent t e := fun t => rfl
    rw [h3, h3, handleEvent_const (handleEvent (runEvents protocolInit es) e)
      (runEvents protocolInit es) e]
  · rw [runEvents_append]
    cases e <;> rfl
  · rw [runEvents_append]
    cases e <;> rfl

/-- The or-event world of the C3 scenario: three fresh source events. -/
def orW0 : OrWorld := ⟨[false, false, false], [none, none, none], []⟩

/-- Combinator 0 is installed over sources `{0, 1}`. -/
def orW1 : OrWorld := installOr orW0 [0, 1]

/-- Combinator 1 is installed over sources `{0, 2}`, sharing source 0. -/
def orW2 : OrWorld := installOr orW1 [0, 2]

/-- The shared source 0 is set. -/
def orW3 : OrWorld := srcSet orW2 0

/-- C3: installing a second OR-combinator over a source already feeding an
earlier combinator silently re-points the source's single `changed`
callback slot at the new combinator (`orify` assigns `event.changed`
unconditionally).  After `OrEvent(e0, e1)` and then `OrEvent(e0, e2)`,
setting the shared source `e0` updates only the second derived event: the
first combinator's derived event stays cleared even though the logical OR
of its own sources is true, refuting the composition property the
combinators are documented to have. -/
theorem orify_shared_source_breaks_first_combinator :
    (orW3.combs.getD 0 ⟨[], false⟩).val = false
    ∧ orValue orW3 [0, 1] = true
    ∧ (orW3.combs.getD 1 ⟨[], false⟩).val = true
    ∧ orW3.srcVal.getD 0 false = true := by
  decide

/-- C7: a session whose requested port is not among the available ports at
start terminates immediately: the error condition carries the `NameError`
cause, `error` and `closed` are both set, and the background loop returns,
so a caller waiting on `closed` or `error` is released. -/
theorem device_not_found_fatal (available : List String) (comport : String)
    (d : Option Nat) (iters : List IterOracle)
    (h : comport ∉ available) :
    (runModel available comport d iters).2.1.errorFlag = true
    ∧ (runModel available comport d iters).2.1.errorCause
        = some (SessionError.nameError comport)
    ∧ (runModel available comport d iters).2.1.closed = true
    ∧ (runModel available comport d iters).2.2 = RunOutcome.terminated := by
  simp [runModel, h, applyActions, applyAction, sessionStart]

/-- Closed instance of `device_not_found_fatal` at a concrete start state. -/
theorem device_not_found_fatal_witness :
    ("COM9" ∉ ([] : List String))
    ∧ (runModel [] "COM9" (some 5) []).2.1.errorFlag = true := by
  have h : "COM9" ∉ ([] : List String) := by simp
  exact ⟨h, (device_not_found_fatal [] "COM9" (some 5) [] h).1⟩

/-- Oracle for an iteration whose `serial_for_url` call raises while the
port is enumerable and no close was requested. -/
def openFailIter : IterOracle :=
  { availDelay := 0, closeDuringWait := false, openOk := false
    openErr := SessionError.serialException, closeAtConnect := false
    closeAtDisconnect := false }

/-- C1 counterexample: the port is enumerable at session start, the open
attempt inside the reconnect loop raises `serial.SerialException`, and —
contrary to the claim that the failure is swallowed and the loop retries —
the session sets its error condition, sets `closed`, and the loop
returns. -/
theorem open_failure_not_swallowed :
    (runModel ["COM3"] "COM3" (some 5) [openFailIter]).2.1.errorFlag = true
    ∧ (runModel ["COM3"] "COM3" (some 5) [openFailIter]).2.1.closed = true
    ∧ (runModel ["COM3"] "COM3" (some 5) [openFailIter]).2.2
        = RunOutcome.terminated := by
  decide

/-- C1 amended: whenever an iteration of the reconnect loop reaches its
open attempt (the availability wait ended without an observed close
request) and `serial_for_url` raises, the exception is recorded as the
error cause, the error condition and `closed` are set, and the loop
returns — a transport-level open failure is fatal for the session, not
retried. -/
theorem open_failure_fatal (d : Option Nat) (s : SessionState)
    (it : IterOracle) (rest : List IterOracle)
    (h1 : it.availDelay = 0 ∨ it.closeDuringWait = false)
    (h2 : it.openOk = false) :
    (runLoop d s (it :: rest)).2.1.errorFlag = true
    ∧ (runLoop d s (it :: rest)).2.1.errorCause = some it.openErr
    ∧ (runLoop d s (it :: rest)).2.1.closed = true
    ∧ (runLoop d s (it :: rest)).2.2 = RunOutcome.terminated := by
  have hcond : ((it.availDelay != 0) && it.closeDuringWait) = false := by
    rcases h1 with h | h <;> simp [h]
  simp [runLoop, hcond, h2, applyActions, applyAction]

/-- Closed instance of `open_failure_fatal` at a concrete input. -/
theorem open_failure_fatal_witness :
    (openFailIter.availDelay = 0 ∨ openFailIter.closeDuringWait = false)
    ∧ openFailIter.openOk = false
    ∧ (runLoop (some 5) sessionStart [openFailIter]).2.1.errorFlag = true := by
  refine ⟨Or.inl rfl, rfl, ?_⟩
  exact (open_failure_fatal (some 5) sessionStart openFailIter []
    (Or.inl rfl) rfl).1

/-- Scan of an action trace checking every recorded connection wait: with
`hc` tracking whether the session has connected at least once, every
`waitConn t` in the trace must carry the timeout the source computes at
line 149, and `markHasConnected` flips the tracker. -/
def waitsOk (hc : Bool) (d : Option Nat) : List Action → Bool
  | [] => true
  | Action.waitConn t :: rest => (t == connectWaitTimeout hc d) && waitsOk hc d rest
  | Action.markHasConnected :: rest => waitsOk true d rest
  | _ :: rest => waitsOk hc d rest

theorem waitsOk_runLoop (d : Option Nat) :
    ∀ (iters : List IterOracle) (s : SessionState),
      waitsOk s.hasConnected d (runLoop d s iters).1 = true := by
  intro iters
  induction iters with
  | nil => intro s; simp [runLoop, waitsOk]
  | cons it rest ih =>
    intro s
    by_cases h1 : ((it.availDelay != 0) && it.closeDuringWait) = true
    · simp [runLoop, h1, waitsOk]
    · have h1' : ((it.availDelay != 0) && it.closeDuringWait) = false := by
        simpa using h1
      by_cases h2 : it.openOk
      · by_cases h3 : it.closeAtConnect
        · simp [runLoop, h1', h2, h3, waitsOk]
        · by_cases h4 : it.closeAtDisconnect
          · simp [runLoop, h1', h2, h3, h4, waitsOk]
          · have hrec := ih (applyActions s
              [Action.waitConn (connectWaitTimeout s.hasConnected d),
               Action.connectAct, Action.markHasConnected, Action.disconnectAct])
            simp [applyActions, applyAction] at hrec
            simp [runLoop, h1', h2, h3, h4, waitsOk, applyActions, applyAction,
              hrec]
      · simp [runLoop, h1', h2, waitsOk]

/-- C5: in every run, every wait for connection uses the timeout
`connectWaitTimeout`, which is the bounded default exactly while
`has_connected` is still unset (initially, and until the first successful
connection is marked in the trace) and `None` — an unbounded wait — for
every wait after the session has connected at least once. -/
theorem first_wait_bounded_reconnect_unbounded
    (available : List String) (comport : String) (d : Option Nat)
    (iters : List IterOracle) :
    waitsOk false d (runModel available comport d iters).1 = true
    ∧ connectWaitTimeout false d = d
    ∧ connectWaitTimeout true d = none := by
  refine ⟨?_, rfl, rfl⟩
  by_cases h : comport ∈ available
  · have hmain := waitsOk_runLoop d iters sessionStart
    simpa [runModel, h, sessionStart] using hmain
  · simp [runModel, h, waitsOk]

/-- Check that a trace ends with the `closed.set()` primitive. -/
def endsWithClose : List Action → Bool
  | [] => false
  | [a] => a == Action.closeAct
  | _ :: b :: tr => endsWithClose (b :: tr)

theorem endsWithClose_append (l1 l2 : List Action)
    (h : endsWithClose l2 = true) : endsWithClose (l1 ++ l2) = true := by
  induction l1 with
  | nil => simpa using h
  | cons a l1 ih =>
    rcases hl : l1 ++ l2 with _ | ⟨b, tr⟩
    · rcases List.append_eq_nil.mp hl with ⟨_, h2⟩
      subst h2
      simp [endsWithClose] at h
    · have : endsWithClose (a :: (l1 ++ l2)) = endsWithClose (l1 ++ l2) := by
        rw [hl]
        simp [endsWithClose]
      rw [List.cons_append, this]
      exact ih

/-- Condition that an error cause is attached whenever the error flag is
set. -/
def causeAttached (s : SessionState) : Bool := !s.errorFlag || s.errorCause.isSome

/-- Scan asserting `causeAttached` at every intermediate state reached
while applying a trace. -/
def invAlong (s : SessionState) : List Action → Bool
  | [] => true
  | a :: tr => causeAttached (applyAction s a) && invAlong (applyAction s a) tr

theorem invAlong_append (l1 l2 : List Action) :
    ∀ s : SessionState,
      invAlong s (l1 ++ l2)
        = (invAlong s l1 && invAlong (applyActions s l1) l2) := by
  induction l1 with
  | nil => intro s; simp [invAlong, applyActions]
  | cons a l1 ih =>
    intro s
    simp [invAlong, ih (applyAction s a), applyActions, Bool.and_assoc]

/-- Termination of the reconnect loop always goes through `closed.set()`:
the final state has `closed` set and the emitted trace ends with the
close action. -/
theorem runLoop_terminated_closed (d : Option Nat) :
    ∀ (iters : List IterOracle) (s : SessionState),
      (runLoop d s iters).2.2 = RunOutcome.terminated →
      (runLoop d s iters).2.1.closed = true
      ∧ endsWithClose (runLoop d s iters).1 = true := by
  intro iters
  induction iters with
  | nil => intro s h; simp [runLoop] at h
  | cons it rest ih =>
    intro s h
    by_cases h1 : ((it.availDelay != 0) && it.closeDuringWait) = true
    · simp [runLoop, h1, applyAction, endsWithClose]
    · have h1' : ((it.availDelay != 0) && it.closeDuringWait) = false := by
        simpa using h1
      by_cases h2 : it.openOk
      · by_cases h3 : it.closeAtConnect
        · simp [runLoop, h1', h2, h3, applyActions, applyAction, endsWithClose]
        · by_cases h4 : it.closeAtDisconnect
          · simp [runLoop, h1', h2, h3, h4, applyActions, applyAction,
              endsWithClose]
          · have hout : (runLoop d s (it :: rest)).2.2
                = (runLoop d (applyActions s
                    [Action.waitConn (connectWaitTimeout s.hasConnected d),
                     Action.connectAct, Action.markHasConnected,
                     Action.disconnectAct]) rest).2.2 := by
              simp [runLoop, h1', h2, h3, h4]
            rw [hout] at h
            have hrec := ih _ h
            constructor
            · have : (runLoop d s (it :: rest)).2.1
                  = (runLoop d (applyActions s
                      [Action.waitConn (connectWaitTimeout s.hasConnected d),
                       Action.connectAct, Action.markHasConnected,
                       Action.disconnectAct]) rest).2.1 := by
                simp [runLoop, h1', h2, h3, h4]
              rw [this]
              exact hrec.1
            · have : (runLoop d s (it :: rest)).1
                  = [Action.waitConn (connectWaitTimeout s.hasConnected d),
                     Action.connectAct, Action.markHasConnected,
                     Action.disconnectAct]
                    ++ (runLoop d (applyActions s
                      [Action.waitConn (connectWaitTimeout s.hasConnected d),
                       Action.connectAct, Action.markHasConnected,
                       Action.disconnectAct]) rest).1 := by
                simp [runLoop, h1', h2, h3, h4]
              rw [this]
              exact endsWithClose_append _ _ hrec.2
      · simp [runLoop, h1', h2, applyActions, applyAction, endsWithClose]

/-- Error causes are attached before the error flag at every intermediate
state of the reconnect loop. -/
theorem invAlong_runLoop (d : Option Nat) :
    ∀ (iters : List IterOracle) (s : SessionState),
      causeAttached s = true →
      invAlong s (runLoop d s iters).1 = true := by
  intro iters
  induction iters with
  | nil => intro s _; simp [runLoop, invAlong]
  | cons it rest ih =>
    intro s hs
    by_cases h1 : ((it.availDelay != 0) && it.closeDuringWait) = true
    · simp only [causeAttached] at hs
      simp [runLoop, h1, invAlong, causeAttached, applyAction, hs]
    · have h1' : ((it.availDelay != 0) && it.closeDuringWait) = false := by
        simpa using h1
      simp only [causeAttached] at hs
      by_cases h2 : it.openOk
      · by_cases h3 : it.closeAtConnect
        · simp [runLoop, h1', h2, h3, invAlong, causeAttached, applyAction, hs]
        · by_cases h4 : it.closeAtDisconnect
          · simp [runLoop, h1', h2, h3, h4, invAlong, causeAttached,
              applyAction, hs]
          · have hrec := ih (applyActions s
              [Action.waitConn (connectWaitTimeout s.hasConnected d),
               Action.connectAct, Action.markHasConnected,
               Action.disconnectAct]) (by
                simp [applyActions, applyAction, causeAttached, hs])
            simp [runLoop, h1', h2, h3, h4, invAlong_append, invAlong,
              causeAttached, applyAction, applyActions, hs] at hrec ⊢
            exact hrec
      · simp [runLoop, h1', h2, invAlong, causeAttached, applyAction, hs]

/-- C10: on every terminating path of the background loop the final state
has `closed` set and the trace's last primitive is the close action; at
every intermediate state an error flag is only ever set with a cause
already attached; no primitive of the loop ever clears `closed`; and the
`alive` property is false exactly when `closed` is set. -/
theorem run_termination_discipline
    (available : List String) (comport : String) (d : Option Nat)
    (iters : List IterOracle)
    (h : (runModel available comport d iters).2.2 = RunOutcome.terminated) :
    (runModel available comport d iters).2.1.closed = true
    ∧ endsWithClose (runModel available comport d iters).1 = true
    ∧ invAlong sessionStart (runModel available comport d iters).1 = true
    ∧ (∀ (s : SessionState) (a : Action),
        s.closed = true → (applyAction s a).closed = true)
    ∧ (∀ s : SessionState, alive s = false ↔ s.closed = true) := by
  have hmono : ∀ (s : SessionState) (a : Action),
      s.closed = true → (applyAction s a).closed = true := by
    intro s a hs
    cases a <;> simp [applyAction, hs]
  have halive : ∀ s : SessionState, alive s = false ↔ s.closed = true := by
    intro s; simp [alive]
  by_cases hmem : comport ∈ available
  · have hterm : (runLoop d sessionStart iters).2.2 = RunOutcome.terminated := by
      simpa [runModel, hmem] using h
    have hclosed := runLoop_terminated_closed d iters sessionStart hterm
    have hinv := invAlong_runLoop d iters sessionStart (by
      simp [sessionStart, causeAttached])
    refine ⟨?_, ?_, ?_, hmono, halive⟩
    · simpa [runModel, hmem] using hclosed.1
    · simpa [runModel, hmem] using hclosed.2
    · simpa [runModel, hmem] using hinv
  · refine ⟨?_, ?_, ?_, hmono, halive⟩ <;>
      simp [runModel, hmem, applyActions, applyAction, endsWithClose,
        invAlong, causeAttached, sessionStart]

/-- Closed instance of `run_termination_discipline` at a concrete input. -/
theorem run_termination_discipline_witness :
    (runModel [] "COM9" none []).2.2 = RunOutcome.terminated
    ∧ (runModel [] "COM9" none []).2.1.closed = true := by
  have h : (runModel [] "COM9" none []).2.2 = RunOutcome.terminated := by
    decide
  exact ⟨h, (run_termination_discipline [] "COM9" none [] h).1⟩

/-- C2 counterexample: `connected` never becomes set within the timeout,
yet the data is forwarded to the transport of the (stale) protocol — the
call neither fails with a `NotConnected` error nor withholds the data. -/
theorem write_forwards_despite_timeout :
    KeepAliveReader.write false (some ⟨some 5⟩) 3 = WriteResult.sent 5 3 := by
  rfl

/-- C2 amended: `write` waits for `connected` bounded by the timeout but
discards the wait's result; whether or not `connected` became true the
call then unconditionally evaluates `self.protocol.transport.write(data)`
— raising an attribute error when no protocol (or no transport) was ever
installed, and otherwise forwarding the data to the current, possibly
stale, transport.  No `NotConnected` failure exists. -/
theorem write_ignores_connected_wait :
    (∀ (c1 c2 : Bool) (p : Option WriteProtocol) (d : Nat),
      KeepAliveReader.write c1 p d = KeepAliveReader.write c2 p d)
    ∧ (∀ (c : Bool) (d : Nat),
      KeepAliveReader.write c none d = WriteResult.attributeError)
    ∧ (∀ (c : Bool) (d : Nat),
      KeepAliveReader.write c (some ⟨none⟩) d = WriteResult.attributeError)
    ∧ (∀ (c : Bool) (d t : Nat),
      KeepAliveReader.write c (some ⟨some t⟩) d = WriteResult.sent t d) := by
  exact ⟨fun _ _ _ _ => rfl, fun _ _ => rfl, fun _ _ => rfl, fun _ _ _ => rfl⟩

/-- A busy-poll run that sees the response (it arrives no later than one
tick past the deadline) returns it. -/
theorem busyGo_got (x p t : Nat) :
    ∀ (fuel k : Nat), k + fuel = t + 2 → k ≤ x → x ≤ t + 1 →
      busyGo (some x) p (some t) fuel k = ReqOutcome.got p := by
  intro fuel
  induction fuel with
  | zero => intro k hk hkx hxt; exfalso; omega
  | succ fuel ih =>
    intro k hk hkx hxt
    by_cases hx : x ≤ k
    · simp [busyGo, qsizeAt, hx]
    · have hk' : ¬ t < k := by omega
      simp [busyGo, qsizeAt, hx, py2GtTimeout, hk']
      exact ih (k + 1) (by omega) (by omega) hxt

/-- A busy-poll run whose response never arrives within one tick past the
deadline raises the queue-empty timeout. -/
theorem busyGo_empty (a : Option Nat) (p t : Nat)
    (hno : ∀ x, a = some x → t + 1 < x) :
    ∀ (fuel k : Nat), k + fuel = t + 2 → k ≤ t + 1 →
      busyGo a p (some t) fuel k = ReqOutcome.queueEmpty := by
  intro fuel
  induction fuel with
  | zero => intro k hk hkt; exfalso; omega
  | succ fuel ih =>
    intro k hk hkt
    have hq : qsizeAt a k = false := by
      cases a with
      | none => rfl
      | some x =>
        have hx := hno x rfl
        simp [qsizeAt]
        omega
    by_cases ht : t < k
    · simp [busyGo, hq, py2GtTimeout, ht]
    · simp [busyGo, hq, py2GtTimeout, ht]
      exact ih (k + 1) (by omega) (by omega)

/-- C4 counterexample: same timing scenario (the single response arrives
at tick 1), same absent (`None`) timeout: the busy-poll discipline fails
with the queue-empty error at once (in Python 2 the elapsed-time
comparison against `None` is immediately true), while the blocking-wait
discipline returns the item — the two disciplines do not produce the same
outcome. -/
theorem poll_blocking_divergence :
    requestRetrieve true (some 1) 7 none = ReqOutcome.queueEmpty
    ∧ requestRetrieve false (some 1) 7 none = ReqOutcome.got 7
    ∧ requestRetrieve true (some 1) 7 none
        ≠ requestRetrieve false (some 1) 7 none := by
  decide

/-- C4 amended: for every bounded timeout `t` the two retrieval
disciplines produce the same outcome — the same item when the response
arrives by the deadline, the same queue-empty error when it never arrives
in time — except in the one-poll-iteration race window just past the
deadline (arrival tick `t + 1`), where the busy loop's queue check
precedes its deadline check and can still return the item; with an absent
(`None`) timeout the disciplines diverge as the counterexample shows. -/
theorem poll_blocking_agree_bounded (a : Option Nat) (p t : Nat)
    (h : a ≠ some (t + 1)) :
    requestRetrieve true a p (some t) = requestRetrieve false a p (some t) := by
  cases a with
  | none =>
    have hb : busyGo none p (some t) (pollFuel (some t)) 0
        = ReqOutcome.queueEmpty :=
      busyGo_empty none p t (by intro x hx; cases hx) (pollFuel (some t)) 0
        (by simp [pollFuel]) (by omega)
    simp [requestRetrieve, busyPoll, blockingGet, hb]
  | some x =>
    by_cases hx : x ≤ t
    · have hb : busyGo (some x) p (some t) (pollFuel (some t)) 0
          = ReqOutcome.got p :=
        busyGo_got x p t (pollFuel (some t)) 0 (by simp [pollFuel])
          (Nat.zero_le x) (by omega)
      simp [requestRetrieve, busyPoll, blockingGet, hb, hx]
    · have hxt : t + 1 < x := by
        rcases Nat.lt_or_ge (t + 1) x with hlt | hge
        · exact hlt
        · exfalso
          have : x = t + 1 := by omega
          exact h (by rw [this])
      have hb : busyGo (some x) p (some t) (pollFuel (some t)) 0
          = ReqOutcome.queueEmpty :=
        busyGo_empty (some x) p t
          (by intro y hy; cases hy; exact hxt) (pollFuel (some t)) 0
          (by simp [pollFuel]) (by omega)
      simp [requestRetrieve, busyPoll, blockingGet, hb, hx]

/-- Closed instance of `poll_blocking_agree_bounded` at a concrete
scenario. -/
theorem poll_blocking_agree_bounded_witness :
    (some 2 ≠ some (5 + 1))
    ∧ requestRetrieve true (some 2) 7 (some 5)
        = requestRetrieve false (some 2) 7 (some 5) := by
  refine ⟨by decide, poll_blocking_agree_bounded (some 2) 7 5 (by decide)⟩

/-- C8: a connect command for a port already present in `open_devices` is
a no-op that republishes the port's current status: the registry is
unchanged, no transport open is attempted, no error is reported, and the
request body is never examined (any two bodies, open verdicts or serial
configurations give the identical result). -/
theorem connect_existing_is_noop (cfg : SerialConfig) (openOk : Bool)
    (r : Registry) (port : String) (req : ConnectRequest) (ps : DeviceParams)
    (h : lookupReg r port = some ps) :
    serialConnect cfg openOk r port req
      = (r, [Pub.status port (some ps)], [], ConnectOutcome.republished)
    ∧ (∀ (cfg2 : SerialConfig) (openOk2 : Bool) (req2 : ConnectRequest),
        serialConnect cfg2 openOk2 r port req2
          = serialConnect cfg openOk r port req) := by
  have hmain : ∀ (cfg' : SerialConfig) (o : Bool) (rq : ConnectRequest),
      serialConnect cfg' o r port rq
        = (r, [Pub.status port (some ps)], [], ConnectOutcome.republished) := by
    intro cfg' o rq
    simp [serialConnect, h, publishStatus]
  exact ⟨hmain cfg openOk req,
    fun cfg2 o2 rq2 => by rw [hmain, hmain]⟩

/-- Serial-module constants used by the concrete orchestrator scenarios. -/
def cfgEx : SerialConfig :=
  ⟨[("EIGHTBITS", 8), ("PARITY_NONE", 0), ("PARITY_EVEN", 2),
    ("STOPBITS_ONE", 1)], [8], [0, 2], [1], 8, 0, 1⟩

/-- Effective parameters of an already-open device. -/
def comParams : DeviceParams := ⟨9600, 8, 0, 1, false, false, false⟩

/-- Connect body `{"baudrate": 9600, "parity": "NOT_A_PARITY"}`. -/
def reqBadParity : ConnectRequest :=
  ⟨some (some 9600), none, some "NOT_A_PARITY", none, false, false, false⟩

/-- Closed instance of `connect_existing_is_noop` at a concrete
registry. -/
theorem connect_existing_is_noop_witness :
    lookupReg [("COM9", comParams)] "COM9" = some comParams
    ∧ serialConnect cfgEx true [("COM9", comParams)] "COM9" reqBadParity
      = ([("COM9", comParams)], [Pub.status "COM9" (some comParams)], [],
         ConnectOutcome.republished) := by
  refine ⟨by decide, ?_⟩
  exact (connect_existing_is_noop cfgEx true [("COM9", comParams)] "COM9"
    reqBadParity comParams (by decide)).1

/-- C9: a connect command for an unregistered port whose body carries an
unrecognized or platform-unsupported `bytesize`, `parity` or `stopbits`
value is rejected before any transport is opened: the registry is
unchanged, no `serial_for_url` call happens, and nothing is published. -/
theorem connect_invalid_param_rejected (cfg : SerialConfig) (openOk : Bool)
    (r : Registry) (port : String) (req : ConnectRequest)
    (h1 : lookupReg r port = none)
    (h2 : resolveField cfg cfg.byteSizes req.bytesize cfg.eightbits = none
        ∨ resolveField cfg cfg.parities req.parity cfg.parityNone = none
        ∨ resolveField cfg cfg.stopBitsVals req.stopbits cfg.stopbitsOne = none) :
    serialConnect cfg openOk r port req = (r, [], [], ConnectOutcome.rejected) := by
  rcases hb : req.baudrate with _ | bc
  · simp [serialConnect, h1, hb]
  · rcases h2 with h2 | h2 | h2
    · simp [serialConnect, h1, hb, h2]
    · rcases hbs : resolveField cfg cfg.byteSizes req.bytesize cfg.eightbits
        with _ | bv
      · simp [serialConnect, h1, hb, hbs]
      · simp [serialConnect, h1, hb, hbs, h2]
    · rcases hbs : resolveField cfg cfg.byteSizes req.bytesize cfg.eightbits
        with _ | bv
      · simp [serialConnect, h1, hb, hbs]
      · rcases hp : resolveField cfg cfg.parities req.parity cfg.parityNone
          with _ | pv
        · simp [serialConnect, h1, hb, hbs, hp]
        · simp [serialConnect, h1, hb, hbs, hp, h2]

/-- Closed instance of `connect_invalid_param_rejected`: the spec's own
scenario, `{"baudrate": 9600, "parity": "NOT_A_PARITY"}` for a port with
no session. -/
theorem connect_invalid_param_rejected_witness :
    lookupReg [] "COM9" = none
    ∧ resolveField cfgEx cfgEx.parities reqBadParity.parity cfgEx.parityNone
        = none
    ∧ serialConnect cfgEx true [] "COM9" reqBadParity
        = ([], [], [], ConnectOutcome.rejected) := by
  refine ⟨rfl, by decide, ?_⟩
  exact connect_invalid_param_rejected cfgEx true [] "COM9" reqBadParity rfl
    (Or.inr (Or.inl (by decide)))

end SerialDevice
